import Mathlib

/-!
Shallow embedding of the rpi-sd-cloner appliance (`src/main.rs`) and a
verification of the specification's claims against it.

The embedding covers:
* the `SystemState` / `LedState` enumerations and the `Into<LedState>`
  conversion (lines 26-65) together with the render `match` of
  `LedDriver::update_loop` (lines 103-147);
* `get_block_devices_with_size` (lines 378-406);
* the verified-copy closure `copy_func` (lines 255-307), both as a concrete
  file/device model and as a read-script model of its write-phase loop;
* the orchestrator loop of `main` (lines 189-343) as a per-tick transition
  function on an explicit configuration, with reachability over ticks.

Loops of the source are modelled with explicit fuel: a result of `none`
means the loop has not terminated within the given number of iterations.
-/

namespace SdCloner

/-- The `SystemState` enumeration (main.rs lines 26-40).  The source spells the success
state `FlashingSuceeded`; the name is kept as written. -/
inductive SystemState where
  | Initializing
  | NoSdCard
  | SdCardFound
  | Flashing
  | FlashingSuceeded
  | FlashingFailed
deriving DecidableEq, Repr

/-- The `LedState` enumeration (main.rs lines 42-52). -/
inductive LedState where
  | Off
  | SolidBoth
  | FlashingGreen
  | FlashingRed
  | FlashingGreenRed
  | SolidGreen
  | SolidRed
deriving DecidableEq, Repr

/-- The `impl Into<LedState> for SystemState` conversion (main.rs lines 54-65). -/
def ledStateOf : SystemState → LedState
  | .Initializing => .SolidBoth
  | .NoSdCard => .FlashingRed
  | .SdCardFound => .FlashingGreen
  | .Flashing => .FlashingGreenRed
  | .FlashingSuceeded => .SolidGreen
  | .FlashingFailed => .SolidRed

/-- The render `match` of `LedDriver::update_loop` (main.rs lines 117-146),
as a function of the current `led_state` and `flash_state`.  The result is
the pair of booleans passed to `set_output` for `(red, yellow)`; `true`
means the pin is driven to the logic-low (LED on) level, matching
`set_output` at lines 95-101. -/
def renderPins : LedState → Bool → Bool × Bool
  | .Off, _ => (false, false)
  | .SolidBoth, _ => (true, true)
  | .SolidRed, _ => (true, false)
  | .SolidGreen, _ => (false, true)
  | .FlashingGreenRed, flash => (flash, !flash)
  | .FlashingGreen, flash => (false, flash)
  | .FlashingRed, flash => (flash, false)

/-- The Status-Cell arm of the `select!` in `LedDriver::update_loop`
(main.rs lines 105-112): on observing system state `s`, the driver adopts
`ledStateOf s` and resets `flash_state` to `false` only when the mapped
LED state differs from the one currently held. -/
def observeState (led : LedState) (phase : Bool) (s : SystemState) : LedState × Bool :=
  if ledStateOf s ≠ led then (ledStateOf s, false) else (led, phase)

/-- The six `SystemState` constructors, in declaration order. -/
def allSystemStates : List SystemState :=
  [.Initializing, .NoSdCard, .SdCardFound, .Flashing, .FlashingSuceeded, .FlashingFailed]

/-! ## Device discovery (`get_block_devices_with_size`, main.rs lines 378-406) -/

/-- One entry of the `/sys/block` registry as `get_block_devices_with_size`
consumes it.  `sectors = none` abstracts the cases the code skips inside its
first `filter_map`: the `size` attribute file does not exist, cannot be
read, or does not parse as `u64`; `sectors = some s` means the attribute
exists and parses to `s`. -/
structure BlockEntry where
  name : String
  sectors : Option Nat
deriving DecidableEq, Repr

/-- The `u64` modulus: sector counts parse as `u64` (so are below this),
and the product `size_blocks * 512` at main.rs line 388 is `u64`
multiplication. -/
def u64Size : Nat := 2 ^ 64

/-- The scan `get_block_devices_with_size` (main.rs lines 378-406).  The registry
argument models `fs::read_dir("/sys/block")`: `.error` when the registry
itself cannot be opened/listed (the only failure the function propagates),
`.ok entries` the enumerated entries in native order.  The body is the
source's two `filter_map` stages: the first keeps entries whose size
attribute parses, pairing them with the `u64` product `size_blocks * 512`
— embedded with the release-profile wrapping semantics as the product
modulo `2^64` (a debug build would instead panic on overflow; for
`size_blocks < 2^55` no overflow occurs and the two agree with the
mathematical product); the second keeps those with
`size >= min_size_bytes` and projects the entry path. -/
def get_block_devices_with_size (min_size_bytes : Nat)
    (registry : Except Unit (List BlockEntry)) : Except Unit (List String) :=
  match registry with
  | .error e => .error e
  | .ok entries =>
      .ok (((entries.filterMap fun e => e.sectors.map fun s => (e, s * 512 % u64Size))).filterMap
        fun p => if p.2 < min_size_bytes then none else some p.1.name)

/-- The discovery result as the claim words it: exactly the entries whose
sector attribute exists and parses with the mathematical product
`sectors * 512 ≥ min_size_bytes`, in registry order. -/
def discoverSpec (min_size_bytes : Nat) (entries : List BlockEntry) : List String :=
  (entries.filter fun e =>
    match e.sectors with
    | some s => decide (min_size_bytes ≤ s * 512)
    | none => false).map (·.name)

/-- The discovery result the code computes: the same selection, but on the
wrapped `u64` product `sectors * 512 % 2^64`. -/
def discoverSpecWrapped (min_size_bytes : Nat) (entries : List BlockEntry) : List String :=
  (entries.filter fun e =>
    match e.sectors with
    | some s => decide (min_size_bytes ≤ s * 512 % u64Size)
    | none => false).map (·.name)

/-! ## Verified copy engine (`copy_func`, main.rs lines 255-307)

Bytes are `Nat`s (only equality of byte sequences matters to the claims).

The crucial facts mirrored from the source:
* `let hash = copied_buffer.hash(&mut hasher)` (lines 266 and 292) calls
  `std::hash::Hash::hash`, whose return type is `()` — not
  `Hasher::finish`.  The recorded hash values therefore have type `()`,
  and the comparison at line 293 compares unit values.  The embedding
  keeps the comparison exactly as written, on type `Unit`.
* the `BufWriter` of the write phase and the `BufReader` of the verify
  phase both wrap `try_clone`s of the same destination `File`
  (lines 247 and 273), so they share one seek position, and no seek back
  to offset 0 happens before the verify loop: the verify reader starts
  at the position the writes left the cursor at.
-/

/-- The destination file/device: byte content plus the single shared cursor
position (shared because writer and verify reader are `try_clone`s of one
`File`).  An initially-empty `data` models a regular file opened with
`truncate(true)`; a longer initial `data` models a raw block device whose
old contents survive past the written region. -/
structure DestFile where
  data : List Nat
  pos : Nat
deriving DecidableEq, Repr

/-- A `write_all` followed by `flush` on the destination (lines 268-269):
overwrite at the cursor, extending the content if needed, and advance the
cursor. -/
def destWrite (d : DestFile) (b : List Nat) : DestFile :=
  { data := d.data.take d.pos ++ b ++ d.data.drop (d.pos + b.length),
    pos := d.pos + b.length }

/-- A `read` of at most `n` bytes at the destination's cursor (line 281):
returns the available bytes (possibly fewer than `n`, empty at
end-of-content) and advances the cursor. -/
def destRead (d : DestFile) (n : Nat) : List Nat × DestFile :=
  let b := (d.data.drop d.pos).take n
  (b, { d with pos := d.pos + b.length })

/-- The error cases `copy_func` produces itself (the `io::Error::new`
constructions at lines 285-302); I/O failures of the modelled pure streams
cannot occur. -/
inductive CopyErr where
  /-- The error "Somehow read more bytes than we could" (lines 285-290). -/
  | readMoreThanCould
  /-- The error "Read more bytes than wrote" (lines 294-297). -/
  | readMoreThanWrote
  /-- The error "Hashes don't match" (lines 299-302). -/
  | hashesDontMatch
deriving DecidableEq, Repr

/-- The chunk size `BUFFER_SIZE` (line 249). -/
def BUFFER_SIZE : Nat := 128 * 1024 * 1024

/-- The write-phase loop of `copy_func` (lines 256-270) over a file-backed
source: each `reader.read(copy_buffer.as_mut())` returns the next
`min BUFFER_SIZE remaining` bytes of `src`.  Faithful loop structure: the
read happens first, then the `read_bytes == source_bytes` check (so a
trailing extra read occurs and its bytes are discarded), then the chunk is
hashed (`Hash::hash` returning `()`), written and flushed.  Fuel counts
loop iterations; `none` means the loop has not terminated. -/
def copyWritePhase (src : List Nat) (source_bytes : Nat) :
    Nat → Nat → Nat → List Unit → DestFile → Option (Nat × List Unit × DestFile)
  | 0, _, _, _, _ => none
  | fuel + 1, srcPos, read_bytes, hashes, dest =>
    let chunk := (src.drop srcPos).take BUFFER_SIZE
    if read_bytes = source_bytes then
      some (read_bytes, hashes, dest)
    else
      copyWritePhase src source_bytes fuel (srcPos + chunk.length)
        (read_bytes + chunk.length) (hashes ++ [()]) (destWrite dest chunk)

/-- The verify-phase loop of `copy_func` (lines 275-304).  `hashes` is the
iterator over the recorded (unit) hash values; `bytes_remaining` starts at
the write phase's `read_bytes`.  Each iteration reads at most
`min BUFFER_SIZE bytes_remaining` bytes at the shared cursor, checks the
`checked_sub`, re-hashes the chunk and compares the unit hash against the
next recorded one, exactly as the source does. -/
def copyVerifyPhase : Nat → List Unit → Nat → DestFile → Option (Except CopyErr Unit)
  | 0, _, _, _ => none
  | fuel + 1, hashes, bytes_remaining, dest =>
    let bytes_to_read := min BUFFER_SIZE bytes_remaining
    if bytes_to_read = 0 then
      some (.ok ())
    else
      let r := destRead dest bytes_to_read
      if bytes_remaining < r.1.length then
        some (.error .readMoreThanCould)
      else
        let hash : Unit := ()
        match hashes with
        | [] => some (.error .readMoreThanWrote)
        | expected :: rest =>
          if hash ≠ expected then
            some (.error .hashesDontMatch)
          else
            copyVerifyPhase fuel rest (bytes_remaining - r.1.length) r.2

/-- The closure `copy_func` (lines 255-307): write phase, then
`writer.into_inner()?` handing the shared cursor to the verify reader with
no repositioning, then the verify phase.  `tamper` is applied to the
destination's content between the two phases and models the destination
silently altering data before the verify phase re-reads it (`tamper = id`
is a faithful destination).  Fuel bounds the iterations of each loop. -/
def copy_func (wfuel vfuel : Nat) (src : List Nat) (source_bytes : Nat)
    (dest0 : DestFile) (tamper : List Nat → List Nat) : Option (Except CopyErr Unit) :=
  match copyWritePhase src source_bytes wfuel 0 0 [] dest0 with
  | none => none
  | some (read_bytes, hashes, dest) =>
      copyVerifyPhase vfuel hashes read_bytes { dest with data := tamper dest.data }

/-! ### The write-phase loop over an arbitrary read script (for the
termination claims).  `script i` is the byte chunk the `i`-th call of
`reader.read` returns; a real stream at end-of-file keeps returning `[]`. -/

/-- Cumulative bytes returned by the first `k` reads of a script. -/
def readSum (script : Nat → List Nat) : Nat → Nat
  | 0 => 0
  | k + 1 => readSum script k + (script k).length

/-- Observable result of the write-phase loop (lines 256-270): the final
`read_bytes`, the recorded hash list (unit values, one per chunk), the
sequence of chunks fed to the `DefaultHasher` in order, the bytes still
buffered in the `BufWriter`, and the bytes flushed to the destination. -/
structure WriteRes where
  read_bytes : Nat
  hashes : List Unit
  fed : List (List Nat)
  buffered : List Nat
  written : List Nat
deriving DecidableEq, Repr

/-- The write-phase loop of `copy_func` (lines 256-270) over an arbitrary
read script, iteration index `i`, with the `BufWriter` state made
explicit: `write_all` appends the chunk to the buffer and the per-chunk
`flush` (line 269) moves the whole buffer to the destination, so the
buffer is empty after every iteration.  Fuel counts loop iterations;
`none` means the loop has not yet terminated. -/
def writeLoop (source_bytes : Nat) (script : Nat → List Nat) :
    Nat → Nat → Nat → List Unit → List (List Nat) → List Nat → List Nat → Option WriteRes
  | 0, _, _, _, _, _, _ => none
  | fuel + 1, i, read_bytes, hashes, fed, buffered, written =>
    let chunk := script i
    if read_bytes = source_bytes then
      some ⟨read_bytes, hashes, fed, buffered, written⟩
    else
      writeLoop source_bytes script fuel (i + 1) (read_bytes + chunk.length)
        (hashes ++ [()]) (fed ++ [chunk]) [] (written ++ (buffered ++ chunk))

/-! ## The orchestrator loop of `main` (lines 187-343)

One iteration of the `loop` is a `tick`.  The configuration carries the
mutable state crossing iterations: the Status Cell's current
`SystemState`, the `device_path` variable, and the Button Latch's
changed flag for the orchestrator reader (`button`).  Per-tick
environment inputs stand for the external collaborators: the device
scan result, the `block_device_valid` oracle, and the destination-open /
source-reopen / copy outcomes of a flash attempt.

The `.and_then(to_str)` plus `/sys/block/ → /dev/` rewrite at lines
205-207 is modelled as the identity on abstract device-identity strings
(`env.scan` already yields the rewritten candidates); non-UTF-8 sysfs
paths are outside the model. -/

/-- Orchestrator configuration at the top of a loop iteration. -/
structure Config where
  state : SystemState
  device_path : Option String
  button : Bool
deriving DecidableEq, Repr

/-- Per-tick environment: outcomes of the external calls the tick makes. -/
structure Env where
  /-- The `get_block_devices_with_size(...)` result, post path rewrite (lines 195-207). -/
  scan : Except Unit (List String)
  /-- The `block_device_valid` oracle (lines 222, 330). -/
  valid : String → Bool
  /-- whether `File::options()...open(device_path)` succeeds (lines 237-241). -/
  openOk : Bool
  /-- whether `File::open(source_path)` and the `try_clone`s succeed (lines 245-247). -/
  reopenOk : Bool
  /-- whether `copy_func()` returns `Ok(())` (line 309). -/
  copyOk : Bool

/-- Errors the orchestrator loop propagates out of `main` with `?`.
`sourceReopen` is the `?` on `File::open(source_path)` (line 245) and the
adjacent `try_clone()?`s (lines 246-247). -/
inductive LoopFatal where
  | sourceReopen
deriving DecidableEq, Repr

/-- One iteration of the orchestrator loop (lines 189-343).  Every
`state_sender.send_replace` is an overwrite of `Config.state`
(last-write-wins within the tick); `button_receiver.mark_unchanged()`
clears `Config.button`; `button_receiver.has_changed()` reads it. -/
def tick (env : Env) (c : Config) : Except LoopFatal Config :=
  match c.state with
  | .Initializing =>
      .ok { c with state := .NoSdCard }
  | .NoSdCard =>
      match env.scan with
      | .error _ => .ok c
      | .ok devices =>
        match devices.head? with
        | none => .ok { c with device_path := none, state := .NoSdCard }
        | some d => .ok { c with device_path := some d, state := .SdCardFound, button := false }
  | .SdCardFound =>
      match c.device_path with
      | none => .ok { c with state := .NoSdCard }
      | some dp =>
        let c1 := if env.valid dp then c else { c with state := .NoSdCard }
        if c1.button then .ok { c1 with state := .Flashing, button := false }
        else .ok c1
  | .Flashing =>
      match c.device_path with
      | none => .ok { c with state := .FlashingFailed }
      | some _ =>
        if env.openOk then
          if env.reopenOk then
            if env.copyOk then .ok { c with state := .FlashingSuceeded, button := false }
            else .ok { c with state := .FlashingFailed, button := false }
          else .error .sourceReopen
        else .ok { c with state := .FlashingFailed, button := false }
  | .FlashingSuceeded | .FlashingFailed =>
      let invalid :=
        match c.device_path with
        | none => true
        | some dp => !env.valid dp
      let c1 := if invalid then { c with state := .NoSdCard } else c
      if c1.button then .ok { c1 with state := .NoSdCard, button := false }
      else .ok c1

/-- The button monitor task possibly latching a press between two ticks
(lines 172-185): `send_replace(())` sets the changed flag. -/
def pressLatch (p : Bool) (c : Config) : Config :=
  { c with button := c.button || p }

/-- Reachable orchestrator configurations: start at
`(Initializing, no device, latch clear)` (lines 159, 170-171, 187), and
between consecutive ticks the button monitor may latch a press. -/
inductive Reachable : Config → Prop where
  | init : Reachable ⟨.Initializing, none, false⟩
  | step : ∀ (env : Env) (p : Bool) (c c' : Config),
      Reachable c → tick env (pressLatch p c) = .ok c' → Reachable c'

/-- The device-identity invariant the code actually maintains: any of the
four post-discovery states holds an identity, and `Initializing` never
does.  (`NoSdCard` is deliberately absent: a stale identity survives
demotions to `NoSdCard`.) -/
def devInvariant (c : Config) : Prop :=
  (c.state = .SdCardFound ∨ c.state = .Flashing ∨
    c.state = .FlashingSuceeded ∨ c.state = .FlashingFailed → c.device_path ≠ none) ∧
  (c.state = .Initializing → c.device_path = none)

/-! ## Theorems -/

/-- Claim C1 (code bug): the spec demands that a silently altered written
byte makes `copy_func` return a verification failure and never success.
Evaluating the embedded `copy_func` at the failing input — a 3-byte source
`[1, 2, 3]`, a block-device destination with prior contents
`[9, 9, 9, 9, 9, 9, 9, 9]`, and the written byte at offset 2 altered to
`250` before the verify phase — yields `Ok(())`: the verify reader starts
at the shared write cursor (offset 3, never repositioned to 0), and the
recorded hashes are `()` values (`Hash::hash` returns unit), so the
comparison at line 293 cannot fail. -/
theorem c1_corrupted_byte_reports_success :
    copy_func 4 4 [1, 2, 3] 3 ⟨[9, 9, 9, 9, 9, 9, 9, 9], 0⟩ (fun d => d.set 2 250)
      = some (.ok ()) := rfl

/-- Claim C2 (code bug): the spec demands that, against a faithful
destination, `copy_func` succeeds for sources of 0 bytes, one chunk, and a
non-multiple of the chunk size, with the verify phase reading from
offset 0.  In the code the verify phase starts at the shared write cursor
(no seek to 0): against a faithful initially-empty destination every
readback returns 0 bytes, each iteration still consumes one recorded
hash, and `copy_func` fails with "Read more bytes than wrote" for every
non-empty source; only the 0-byte source succeeds. -/
theorem c2_roundtrip_fails_for_nonempty_source :
    copy_func 4 4 [1, 2, 3] 3 ⟨[], 0⟩ (fun d => d) = some (.error .readMoreThanWrote) ∧
    copy_func 4 4 [] 0 ⟨[], 0⟩ (fun d => d) = some (.ok ()) :=
  ⟨rfl, rfl⟩

/-- Counterexample to claim C6: a parsable sector count of `2^55` makes
the `u64` product `size_blocks * 512` wrap to `0`, so the entry is
excluded even though its mathematical `sectors * 512 = 2^64` exceeds the
threshold — the scan does not return "exactly those entries with
`sectors * 512 >= min_size_bytes`" (the claim's reading, `discoverSpec`,
would keep it). -/
theorem c6_counterexample_overflow_excludes_entry :
    get_block_devices_with_size 1 (.ok [⟨"big", some (2 ^ 55)⟩]) = .ok [] ∧
    discoverSpec 1 [⟨"big", some (2 ^ 55)⟩] = ["big"] :=
  ⟨rfl, rfl⟩

/-- Helper: when every parsed sector count stays below `2^55`, the `u64`
product cannot wrap and the wrapped selection agrees with the claim's
mathematical one. -/
theorem discoverSpecWrapped_eq_below (m : Nat) (entries : List BlockEntry)
    (h : ∀ e ∈ entries, ∀ s, e.sectors = some s → s < 2 ^ 55) :
    discoverSpecWrapped m entries = discoverSpec m entries := by
  unfold discoverSpecWrapped discoverSpec
  congr 1
  apply List.filter_congr
  intro e he
  cases hs : e.sectors with
  | none => rfl
  | some s =>
    have hlt : s * 512 < u64Size := by
      have hb : s < 2 ^ 55 := h e he s hs
      calc s * 512 < 2 ^ 55 * 512 := (Nat.mul_lt_mul_right (by norm_num)).mpr hb
        _ = u64Size := by norm_num [u64Size]
    simp [Nat.mod_eq_of_lt hlt]

/-- Claim C6 as amended: `get_block_devices_with_size` returns exactly the
entries whose sector attribute exists and parses with the wrapped `u64`
product `sectors * 512 % 2^64 ≥ min_size_bytes`, in the registry's native
order, skipping entries with a missing or unparsable attribute, and fails
exactly when the registry itself cannot be listed; whenever every parsed
sector count is below `2^55` (no overflow possible — true of any real
device), this coincides with the claim's mathematical
`sectors * 512 ≥ min_size_bytes` selection. -/
theorem c6_amended_discovery_wrapped :
    (∀ (m : Nat) (entries : List BlockEntry),
      get_block_devices_with_size m (.ok entries) = .ok (discoverSpecWrapped m entries)) ∧
    (∀ (m : Nat) (e : Unit),
      get_block_devices_with_size m (.error e) = .error e) ∧
    (∀ (m : Nat) (entries : List BlockEntry),
      (∀ e ∈ entries, ∀ s, e.sectors = some s → s < 2 ^ 55) →
      get_block_devices_with_size m (.ok entries) = .ok (discoverSpec m entries)) := by
  have hmain : ∀ (m : Nat) (entries : List BlockEntry),
      get_block_devices_with_size m (.ok entries) = .ok (discoverSpecWrapped m entries) := by
    intro m entries
    simp only [get_block_devices_with_size, discoverSpecWrapped, Except.ok.injEq]
    induction entries with
    | nil => rfl
    | cons e rest ih =>
      cases hs : e.sectors with
      | none => simpa [List.filterMap_cons, List.filter_cons, hs] using ih
      | some s =>
        by_cases hm : s * 512 % u64Size < m
        · simpa [List.filterMap_cons, List.filter_cons, hs, hm, Nat.not_le.mpr hm] using ih
        · simpa [List.filterMap_cons, List.filter_cons, hs, hm, Nat.not_lt.mp hm] using ih
  refine ⟨hmain, fun m e => rfl, fun m entries h => ?_⟩
  rw [hmain m entries, discoverSpecWrapped_eq_below m entries h]

/-- Witness for C6 as amended, exercising the no-overflow conjunct on a
registry whose single entry has 3 sectors. -/
theorem c6_amended_discovery_wrapped_witness :
    get_block_devices_with_size 1 (.ok [⟨"a", some 3⟩]) =
      .ok (discoverSpec 1 [⟨"a", some 3⟩]) :=
  c6_amended_discovery_wrapped.2.2 1 [⟨"a", some 3⟩]
    (fun e he s hs => by
      rw [List.mem_singleton] at he
      subst he
      cases hs
      decide)

/-- Observing the same `SystemState` a second time leaves the LED driver's
`(led_state, flash_state)` pair unchanged (main.rs lines 105-112). -/
theorem observeState_idem (led : LedState) (phase : Bool) (s : SystemState) :
    observeState (observeState led phase s).1 (observeState led phase s).2 s
      = observeState led phase s := by
  unfold observeState
  by_cases h : ledStateOf s = led <;> simp [h]

/-- Claim C7: the `SystemState → LedState` mapping equals the spec's
table, is total (every state is enumerated and mapped) and injective
(no two states map to the same LED pattern), and re-rendering after
observing the same `SystemState` again without a timer tick produces the
identical pin levels. -/
theorem c7_led_mapping_total_injective_stable :
    (ledStateOf .Initializing = .SolidBoth ∧ ledStateOf .NoSdCard = .FlashingRed ∧
      ledStateOf .SdCardFound = .FlashingGreen ∧ ledStateOf .Flashing = .FlashingGreenRed ∧
      ledStateOf .FlashingSuceeded = .SolidGreen ∧ ledStateOf .FlashingFailed = .SolidRed) ∧
    (allSystemStates.map ledStateOf).Nodup ∧
    (∀ s : SystemState, s ∈ allSystemStates) ∧
    (∀ (led : LedState) (phase : Bool) (s : SystemState),
      renderPins (observeState (observeState led phase s).1 (observeState led phase s).2 s).1
          (observeState (observeState led phase s).1 (observeState led phase s).2 s).2
        = renderPins (observeState led phase s).1 (observeState led phase s).2) := by
  refine ⟨⟨rfl, rfl, rfl, rfl, rfl, rfl⟩, by decide, fun s => by cases s <;> decide,
    fun led phase s => by rw [observeState_idem]⟩

/-- Helper: as long as no cumulative read count within the fuel window
equals `source_bytes`, the write loop keeps running (returns `none`). -/
theorem writeLoop_none (sb : Nat) (script : Nat → List Nat) :
    ∀ (f i : Nat) (hashes : List Unit) (fed : List (List Nat)) (buffered written : List Nat),
      (∀ j, i ≤ j → j < i + f → readSum script j ≠ sb) →
      writeLoop sb script f i (readSum script i) hashes fed buffered written = none := by
  intro f
  induction f with
  | zero => intro i hashes fed buffered written _; rfl
  | succ f ih =>
    intro i hashes fed buffered written h
    have hne : readSum script i ≠ sb := h i le_rfl (by omega)
    have hrec : readSum script i + (script i).length = readSum script (i + 1) := rfl
    simp only [writeLoop, hne, if_false, if_neg hne, hrec]
    exact ih (i + 1) _ _ _ _ (fun j hj1 hj2 => h j (by omega) (by omega))

/-- Helper: if the cumulative read count first equals `source_bytes` after
exactly `d` more reads, then with more than `d` iterations of fuel the
write loop terminates, having hashed and fed exactly those `d` chunks in
read order, flushed them all to the destination, and left nothing
buffered. -/
theorem writeLoop_some (sb : Nat) (script : Nat → List Nat) :
    ∀ (d i : Nat) (hashes : List Unit) (fed : List (List Nat)) (written : List Nat) (f : Nat),
      readSum script (i + d) = sb →
      (∀ j, i ≤ j → j < i + d → readSum script j ≠ sb) →
      d < f →
      writeLoop sb script f i (readSum script i) hashes fed [] written =
        some ⟨sb, hashes ++ List.replicate d (), fed ++ (List.range' i d).map script, [],
          written ++ ((List.range' i d).map script).flatten⟩ := by
  intro d
  induction d with
  | zero =>
    intro i hashes fed written f hk _ hf
    obtain ⟨f', rfl⟩ : ∃ f', f = f' + 1 := ⟨f - 1, by omega⟩
    have hk0 : readSum script i = sb := hk
    simp [writeLoop, hk0]
  | succ d ih =>
    intro i hashes fed written f hk hfirst hf
    obtain ⟨f', rfl⟩ : ∃ f', f = f' + 1 := ⟨f - 1, by omega⟩
    have hne : readSum script i ≠ sb := hfirst i le_rfl (by omega)
    have hrec : readSum script i + (script i).length = readSum script (i + 1) := rfl
    simp only [writeLoop, hne, if_neg hne, hrec]
    have hk' : readSum script (i + 1 + d) = sb := by
      have : i + 1 + d = i + (d + 1) := by omega
      rw [this]; exact hk
    have hfirst' : ∀ j, i + 1 ≤ j → j < i + 1 + d → readSum script j ≠ sb :=
      fun j hj1 hj2 => hfirst j (by omega) (by omega)
    have := ih (i + 1) (hashes ++ [()]) (fed ++ [script i])
      (written ++ ([] ++ script i)) f' hk' hfirst' (by omega)
    rw [this]
    have hrange : List.range' i (d + 1) = i :: List.range' (i + 1) d := List.range'_succ i d 1
    simp [hrange, List.replicate_succ, List.append_assoc]

/-- Claim C3: the write-phase loop of `copy_func` terminates precisely
when the cumulative byte count of the reads performed so far equals
`source_bytes` — never earlier (fuel up to the terminating iteration
yields `none`, and zero-byte end-of-stream reads alone never break the
loop), and if no cumulative count ever equals `source_bytes` it never
terminates.  On termination, exactly the chunks read before that point
have been fed to the hasher in read order (one recorded hash each),
written to the destination, and the writer's buffer has been flushed
after every chunk (it is empty). -/
theorem c3_write_loop_terminates_exactly (script : Nat → List Nat) (sb : Nat) :
    (∀ k, readSum script k = sb → (∀ j, j < k → readSum script j ≠ sb) →
      (∀ f, f ≤ k → writeLoop sb script f 0 0 [] [] [] [] = none) ∧
      (∀ f, k < f → writeLoop sb script f 0 0 [] [] [] [] =
        some ⟨sb, List.replicate k (), (List.range k).map script, [],
          ((List.range k).map script).flatten⟩)) ∧
    ((∀ j, readSum script j ≠ sb) →
      ∀ f, writeLoop sb script f 0 0 [] [] [] [] = none) := by
  constructor
  · intro k hk hfirst
    constructor
    · intro f hf
      have h0 : readSum script 0 = 0 := rfl
      have := writeLoop_none sb script f 0 [] [] [] []
        (fun j _ hj2 => hfirst j (by omega))
      rw [h0] at this
      exact this
    · intro f hf
      have h0 : readSum script 0 = 0 := rfl
      have := writeLoop_some sb script k 0 [] [] [] f (by simpa using hk)
        (fun j _ hj2 => hfirst j (by omega)) hf
      rw [h0] at this
      simpa [← List.range_eq_range'] using this
  · intro hall f
    have h0 : readSum script 0 = 0 := rfl
    have := writeLoop_none sb script f 0 [] [] [] [] (fun j _ _ => hall j)
    rw [h0] at this
    exact this

/-- Witness for C3 at the concrete script whose `i`-th read returns the
two bytes `[i, i]` and `source_bytes = 4`: the loop ends after the check
following the second chunk, with both chunks hashed, fed and written. -/
theorem c3_write_loop_terminates_exactly_witness :
    writeLoop 4 (fun i => [i, i]) 3 0 0 [] [] [] [] =
      some ⟨4, List.replicate 2 (), (List.range 2).map (fun i => [i, i]), [],
        ((List.range 2).map (fun i => [i, i])).flatten⟩ :=
  ((c3_write_loop_terminates_exactly (fun i => [i, i]) 4).1 2 (by decide)
    (by decide)).2 3 (by decide)

/-- Claim C10: if the source stream hits end-of-file (all reads from index
`m` on return 0 bytes) while every cumulative count up to `m` is still
strictly below `source_bytes`, the write-phase loop never terminates: for
every amount of fuel it is still running. -/
theorem c10_premature_eof_never_terminates (script : Nat → List Nat) (sb m : Nat)
    (hEof : ∀ j, m ≤ j → script j = [])
    (hlt : ∀ j, j ≤ m → readSum script j < sb) :
    ∀ f, writeLoop sb script f 0 0 [] [] [] [] = none := by
  have hconst : ∀ j, m ≤ j → readSum script j = readSum script m := by
    intro j hj
    induction j, hj using Nat.le_induction with
    | base => rfl
    | succ j hj ih =>
      show readSum script j + (script j).length = readSum script m
      rw [hEof j hj]
      simpa using ih
  have hall : ∀ j, readSum script j ≠ sb := by
    intro j
    rcases le_or_lt j m with h | h
    · exact Nat.ne_of_lt (hlt j h)
    · rw [hconst j h.le]; exact Nat.ne_of_lt (hlt m le_rfl)
  intro f
  have h0 : readSum script 0 = 0 := rfl
  have := writeLoop_none sb script f 0 [] [] [] [] (fun j _ _ => hall j)
  rw [h0] at this
  exact this

/-- Witness for C10: a source that is empty from the very first read while
`source_bytes = 1`; with fuel 5 the loop is still running. -/
theorem c10_premature_eof_never_terminates_witness :
    writeLoop 1 (fun _ => ([] : List Nat)) 5 0 0 [] [] [] [] = none :=
  c10_premature_eof_never_terminates (fun _ => []) 1 0 (fun _ _ => rfl)
    (fun j hj => by
      have hj0 : j = 0 := Nat.le_zero.mp hj
      subst hj0
      decide) 5

/-- An environment in which the device validity check fails and every
flash-attempt step fails; the scan errors. -/
def envInvalid : Env :=
  { scan := .error (), valid := fun _ => false, openOk := false,
    reopenOk := false, copyOk := false }

/-- An environment whose scan discovers the single device `"d"`, which
does not validate. -/
def envFound : Env :=
  { envInvalid with scan := .ok ["d"] }

/-- An environment for a flash attempt whose destination open succeeds but
whose source re-open fails. -/
def envReopenFail : Env :=
  { envInvalid with valid := fun _ => true, openOk := true }

/-- An environment for a flash attempt in which open and re-open succeed
but the copy/verify fails. -/
def envCopyFail : Env :=
  { envInvalid with valid := fun _ => true, openOk := true, reopenOk := true }

/-- Counterexample to claim C4: in the `SdCardFound` branch the code does
not stop after publishing `NoSdCard` on a failed validity check (no
`continue` at lines 222-224), so a pending button press still publishes
`Flashing`, which — last write wins — is the state the tick ends in. -/
theorem c4_counterexample_invalid_press_flashes :
    tick envInvalid ⟨.SdCardFound, some "d", true⟩ = .ok ⟨.Flashing, some "d", false⟩ := rfl

/-- Claim C4 as amended: from either terminal state an invalid (or
absent) device identity makes the next tick end in `NoSdCard` regardless
of a pending button press; from `SdCardFound` an invalid identity makes
the next tick end in `NoSdCard` only when no button press is pending. -/
theorem c4_amended_invalid_demotes (env : Env) (c : Config) :
    ((c.state = .FlashingFailed ∨ c.state = .FlashingSuceeded) →
      (∀ dp, c.device_path = some dp → env.valid dp = false) →
      ∃ c', tick env c = .ok c' ∧ c'.state = .NoSdCard) ∧
    (c.state = .SdCardFound →
      (∀ dp, c.device_path = some dp → env.valid dp = false) →
      c.button = false →
      ∃ c', tick env c = .ok c' ∧ c'.state = .NoSdCard) := by
  obtain ⟨st, dp, b⟩ := c
  constructor
  · rintro (rfl | rfl) hv <;>
    · cases dp with
      | none => cases b <;> exact ⟨_, rfl, rfl⟩
      | some d =>
        have hd : env.valid d = false := hv d rfl
        cases b <;> simp [tick, hd]
  · rintro rfl hv rfl
    cases dp with
    | none => exact ⟨_, rfl, rfl⟩
    | some d =>
      have hd : env.valid d = false := hv d rfl
      simp [tick, hd]

/-- Witness for C4 as amended: a terminal state with a pending press and
an invalid device ends in `NoSdCard`, and so does `SdCardFound` with an
invalid device and no pending press. -/
theorem c4_amended_invalid_demotes_witness :
    (∃ c', tick envInvalid ⟨.FlashingFailed, some "d", true⟩ = .ok c' ∧
      c'.state = .NoSdCard) ∧
    (∃ c', tick envInvalid ⟨.SdCardFound, some "d", false⟩ = .ok c' ∧
      c'.state = .NoSdCard) :=
  ⟨(c4_amended_invalid_demotes envInvalid ⟨.FlashingFailed, some "d", true⟩).1
      (Or.inl rfl) (fun dp h => by cases h; rfl),
   (c4_amended_invalid_demotes envInvalid ⟨.SdCardFound, some "d", false⟩).2
      rfl (fun dp h => by cases h; rfl) rfl⟩

/-- Counterexample to claim C5: a failure to re-open the source image
during a flash attempt is propagated out of the orchestrator loop by the
`?` at line 245 instead of being absorbed into `FlashingFailed`. -/
theorem c5_counterexample_reopen_propagates :
    tick envReopenFail ⟨.Flashing, some "d", false⟩ = .error .sourceReopen := rfl

/-- Claim C5 as amended: provided the source image re-opens (and the
handle clones succeed), every device/copy error of a flash attempt —
destination open failure, copy I/O error, verification mismatch — is
absorbed into a transition to `FlashingFailed` and the tick returns
normally; only the source re-open failure and latch/cell protocol errors
escape the loop. -/
theorem c5_amended_errors_absorbed (env : Env) (c : Config) (dp : String)
    (hs : c.state = .Flashing) (hdp : c.device_path = some dp)
    (hro : env.reopenOk = true) :
    ∃ c', tick env c = .ok c' ∧
      (c'.state = .FlashingFailed ∨ c'.state = .FlashingSuceeded) ∧
      ((env.openOk = false ∨ env.copyOk = false) → c'.state = .FlashingFailed) := by
  obtain ⟨st, dpv, b⟩ := c
  cases hs
  cases hdp
  cases ho : env.openOk with
  | false =>
    exact ⟨⟨.FlashingFailed, some dp, false⟩, by simp [tick, ho], Or.inl rfl, fun _ => rfl⟩
  | true =>
    cases hc : env.copyOk with
    | false =>
      exact ⟨⟨.FlashingFailed, some dp, false⟩, by simp [tick, ho, hro, hc],
        Or.inl rfl, fun _ => rfl⟩
    | true =>
      exact ⟨⟨.FlashingSuceeded, some dp, false⟩, by simp [tick, ho, hro, hc],
        Or.inr rfl, fun h => by simp [ho, hc] at h⟩

/-- Witness for C5 as amended: with the source re-open succeeding and the
copy failing, the tick returns normally in `FlashingFailed`. -/
theorem c5_amended_errors_absorbed_witness :
    ∃ c', tick envCopyFail ⟨.Flashing, some "d", false⟩ = .ok c' ∧
      (c'.state = .FlashingFailed ∨ c'.state = .FlashingSuceeded) ∧
      ((envCopyFail.openOk = false ∨ envCopyFail.copyOk = false) →
        c'.state = .FlashingFailed) :=
  c5_amended_errors_absorbed envCopyFail ⟨.Flashing, some "d", false⟩ "d" rfl rfl rfl

/-- Counterexample to claim C9: the missing-device early exit of the
`Flashing` branch (`continue` at line 234) skips the
`button_receiver.mark_unchanged()` at line 326, so the handler publishes
its outcome `FlashingFailed` with the latch still set. -/
theorem c9_counterexample_missing_device_keeps_latch :
    tick envInvalid ⟨.Flashing, none, true⟩ = .ok ⟨.FlashingFailed, none, true⟩ := rfl

/-- Claim C9 as amended: whenever the `Flashing` handler runs with a
device identity held and returns normally — destination open failure,
copy/verify failure, or success — the Button Latch is cleared by the time
it returns; only the (normally unreachable) missing-device early exit
leaves the latch set. -/
theorem c9_amended_latch_cleared (env : Env) (c : Config) (dp : String) (c' : Config)
    (hs : c.state = .Flashing) (hdp : c.device_path = some dp)
    (h : tick env c = .ok c') : c'.button = false := by
  obtain ⟨st, dpv, b⟩ := c
  cases hs
  cases hdp
  cases ho : env.openOk with
  | false =>
    simp [tick, ho] at h
    simp [← h]
  | true =>
    cases hr : env.reopenOk with
    | false => simp [tick, ho, hr] at h
    | true =>
      cases hc : env.copyOk with
      | false =>
        simp [tick, ho, hr, hc] at h
        simp [← h]
      | true =>
        simp [tick, ho, hr, hc] at h
        simp [← h]

/-- Witness for C9 as amended: a flash attempt whose copy fails returns
with the latch cleared. -/
theorem c9_amended_latch_cleared_witness :
    (⟨.FlashingFailed, some "d", false⟩ : Config).button = false :=
  c9_amended_latch_cleared envCopyFail ⟨.Flashing, some "d", true⟩ "d"
    ⟨.FlashingFailed, some "d", false⟩ rfl rfl rfl

/-- Counterexample to claim C8: a `NoSdCard` configuration that still
holds a device identity is reachable — demoting `SdCardFound` to
`NoSdCard` on a failed validity check leaves `device_path` set (the code
never assigns `None` to it; it is only overwritten by a later scan). -/
theorem c8_counterexample_nosdcard_holds_identity :
    ¬ ∀ c : Config, Reachable c → c.state = .NoSdCard → c.device_path = none := by
  intro h
  have r1 : Reachable ⟨.NoSdCard, none, false⟩ :=
    .step envInvalid false _ _ .init rfl
  have r2 : Reachable ⟨.SdCardFound, some "d", false⟩ :=
    .step envFound false _ _ r1 rfl
  have r3 : Reachable ⟨.NoSdCard, some "d", false⟩ :=
    .step envInvalid false _ _ r2 rfl
  exact absurd (h _ r3 rfl) (by simp)

/-- Helper: one orchestrator tick preserves the device-identity
invariant the code actually maintains. -/
theorem tick_preserves_devInvariant (env : Env) (c c' : Config)
    (hI : devInvariant c) (h : tick env c = .ok c') : devInvariant c' := by
  obtain ⟨st, dp, b⟩ := c
  cases st with
  | Initializing =>
    simp [tick] at h
    simp [devInvariant, ← h]
  | NoSdCard =>
    cases hscan : env.scan with
    | error e =>
      simp [tick, hscan] at h
      simp [devInvariant, ← h]
    | ok devices =>
      cases hd : devices.head? with
      | none =>
        simp [tick, hscan, hd] at h
        simp [devInvariant, ← h]
      | some d =>
        simp [tick, hscan, hd] at h
        simp [devInvariant, ← h]
  | SdCardFound =>
    cases dp with
    | none =>
      simp [tick] at h
      simp [devInvariant, ← h]
    | some d =>
      cases hv : env.valid d <;> cases b <;>
        · simp [tick, hv] at h
          simp [devInvariant, ← h]
  | Flashing =>
    cases dp with
    | none =>
      exact absurd rfl (hI.1 (Or.inr (Or.inl rfl)))
    | some d =>
      cases ho : env.openOk with
      | false =>
        simp [tick, ho] at h
        simp [devInvariant, ← h]
      | true =>
        cases hr : env.reopenOk with
        | false => simp [tick, ho, hr] at h
        | true =>
          cases hc : env.copyOk <;>
            · simp [tick, ho, hr, hc] at h
              simp [devInvariant, ← h]
  | FlashingSuceeded =>
    cases dp with
    | none =>
      cases b <;>
        · simp [tick] at h
          simp [devInvariant, ← h]
    | some d =>
      cases hv : env.valid d <;> cases b <;>
        · simp [tick, hv] at h
          simp [devInvariant, ← h]
  | FlashingFailed =>
    cases dp with
    | none =>
      cases b <;>
        · simp [tick] at h
          simp [devInvariant, ← h]
    | some d =>
      cases hv : env.valid d <;> cases b <;>
        · simp [tick, hv] at h
          simp [devInvariant, ← h]

/-- Claim C8 as amended: in every reachable configuration, each of
`SdCardFound`, `Flashing`, `FlashingSuceeded` and `FlashingFailed` holds
a device identity, and `Initializing` never does; but demotion to
`NoSdCard` does not drop the identity, so `NoSdCard` configurations may
retain a stale one. -/
theorem c8_amended_identity_invariant (c : Config) (h : Reachable c) :
    devInvariant c := by
  induction h with
  | init => exact ⟨by simp, fun _ => rfl⟩
  | step env p c c' _ htick ih =>
    have hp : devInvariant (pressLatch p c) := ih
    exact tick_preserves_devInvariant env (pressLatch p c) c' hp htick

/-- Witness for C8 as amended: the initial configuration satisfies the
invariant. -/
theorem c8_amended_identity_invariant_witness :
    devInvariant ⟨.Initializing, none, false⟩ :=
  c8_amended_identity_invariant ⟨.Initializing, none, false⟩ Reachable.init

end SdCloner
